import Mathlib

/-
Verification development for the PIE-G visual reinforcement-learning agent
(src/pie_g/agent.py). The agent code is shallowly embedded over exact
rationals: tensors become lists of rationals, images become lists of
channels (each a list of rows), and the stochastic / autodiff parts that
live outside the repository (torch RNG, Adam optimizer steps, the resnet
backbone) are abstracted as explicit function parameters or modelled from
the specification where the repository code itself is not available.
-/

namespace PieG

/-- One image channel: a list of rows of rational pixel values. -/
abbrev Chan := List (List ℚ)

/-- An image: a list of channels. -/
abbrev Image := List Chan

/-- Mean of a list of rationals (torch mean, with the empty-list value 0). -/
def listMean (xs : List ℚ) : ℚ := xs.sum / xs.length

/-- F.mse_loss with default mean reduction: mean of squared differences. -/
def mse_loss (a b : List ℚ) : ℚ :=
  (List.zipWith (fun x y => (x - y) * (x - y)) a b).sum / (List.zipWith (fun x y => (x - y) * (x - y)) a b).length

/-- Three-list pointwise zip, used for reward / not_done / next-obs batches. -/
def zipWith3 {α β γ δ : Type} (f : α → β → γ → δ) : List α → List β → List γ → List δ
  | a :: as, b :: bs, c :: cs => f a b c :: zipWith3 f as bs cs
  | _, _, _ => []

/-- torch.clamp on rationals. -/
def clampQ (x lo hi : ℚ) : ℚ := max lo (min hi x)

/-! ## RandomShiftsAug (agent.py lines 18-42)

The forward pass pads the (square) image by pad with replicate padding,
builds a base sampling grid from a truncated linspace, adds a random
integer shift drawn from randint(0, 2*pad+1) scaled by 2/(h+2*pad),
and resamples with bilinear grid_sample (zeros padding,
align_corners=False). The grid arithmetic below is the exact rational
transcription of the source; grid_sample and replicate padding are the
documented semantics of the torch library calls it makes. -/

/-- Replicate-pad one row on the left and right by p. -/
def padReplicateRow (p : Nat) (r : List ℚ) : List ℚ :=
  List.replicate p (r.headD 0) ++ r ++ List.replicate p (r.getLastD 0)

/-- F.pad with mode replicate on a single channel: pad each row, then
repeat the first and last padded rows p times. -/
def padReplicateChan (p : Nat) (c : Chan) : Chan :=
  let rows := c.map (padReplicateRow p)
  List.replicate p (rows.headD []) ++ rows ++ List.replicate p (rows.getLastD [])

/-- Zero-padded pixel access (grid_sample padding_mode zeros): out-of-range
coordinates read as 0. -/
def pixelAt (c : Chan) (y x : ℤ) : ℚ :=
  if 0 ≤ y ∧ 0 ≤ x then (c.getD y.toNat []).getD x.toNat 0 else 0

/-- Floor of a rational as an integer, written with Euclidean division so
that it evaluates by kernel reduction. -/
def ratFloor (q : ℚ) : ℤ := Int.ediv q.num (q.den : ℤ)

/-- Bilinear interpolation at unnormalized coordinates (ix, iy), the
sampling kernel of F.grid_sample in bilinear mode. -/
def bilinearSample (c : Chan) (ix iy : ℚ) : ℚ :=
  let x0 : ℤ := ratFloor ix
  let y0 : ℤ := ratFloor iy
  let wx : ℚ := ix - x0
  let wy : ℚ := iy - y0
  (1 - wx) * (1 - wy) * pixelAt c y0 x0
    + wx * (1 - wy) * pixelAt c y0 (x0 + 1)
    + (1 - wx) * wy * pixelAt c (y0 + 1) x0
    + wx * wy * pixelAt c (y0 + 1) (x0 + 1)

/-- grid_sample coordinate unnormalization with align_corners=False:
maps a grid coordinate in [-1, 1] to pixel space. -/
def gridUnnormalize (g : ℚ) (size : Nat) : ℚ := ((g + 1) * size - 1) / 2

/-- torch.linspace value: point i of n evenly spaced points from a to b. -/
def linspaceVal (a b : ℚ) (n i : Nat) : ℚ := a + i * ((b - a) / ((n : ℚ) - 1))

/-- Entry i of the truncated arange of the source: linspace(-1+eps, 1-eps,
h+2*pad) restricted to the first h entries, with eps = 1/(h+2*pad). -/
def arangeVal (h p i : Nat) : ℚ :=
  let n := h + 2 * p
  linspaceVal (-1 + 1 / (n : ℚ)) (1 - 1 / (n : ℚ)) n i

/-- The scaled random shift: an integer draw s in [0, 2*pad] times
2/(h+2*pad). -/
def augShiftScale (h p s : Nat) : ℚ := (s : ℚ) * (2 / ((h : ℚ) + 2 * p))

/-- RandomShiftsAug.forward on a single image for given integer shift
draws (sx, sy): asserts the image is square, replicate-pads by p, and
bilinearly resamples on the shifted grid. -/
def RandomShiftsAug_forward (p : Nat) (sx sy : Nat) (img : Image) : Except String Image :=
  let h := (img.headD []).length
  let w := ((img.headD []).headD []).length
  if h = w then
    let n := h + 2 * p
    .ok (img.map (fun c =>
      let cp := padReplicateChan p c
      (List.range h).map (fun i =>
        (List.range h).map (fun j =>
          let gx := arangeVal h p j + augShiftScale h p sx
          let gy := arangeVal h p i + augShiftScale h p sy
          bilinearSample cp (gridUnnormalize gx n) (gridUnnormalize gy n)))))
  else .error "assert h == w"

/-! ## Random number generator

The shifts are drawn from the torch global generator, which is outside
the repository; it is modelled as a deterministic linear congruential
stream seeded by a natural number, which captures the property the
specification relies on: the draw is a pure function of the generator
state. -/

/-- Advance the modelled generator state. -/
def lcgNext (g : Nat) : Nat := (1103515245 * g + 12345) % 2147483648

/-- torch.randint(lo, hi) modelled on the generator: returns the drawn
value and the next generator state. -/
def randintDraw (lo hi g : Nat) : Nat × Nat :=
  let g1 := lcgNext g
  (lo + g1 % (hi - lo), g1)

/-- The pair of shift draws (sx, sy) made for one image by
RandomShiftsAug.forward, together with the final generator state. -/
def drawShiftPair (p g : Nat) : (Nat × Nat) × Nat :=
  let (sx, g1) := randintDraw 0 (2 * p + 1) g
  let (sy, g2) := randintDraw 0 (2 * p + 1) g1
  ((sx, sy), g2)

/-- RandomShiftsAug.forward over a batch of images, threading the
generator state: each image receives its own independently drawn shift
pair, as in the source where shift has one entry per batch element. -/
def RandomShiftsAug_forward_batch (p : Nat) (xs : List Image) (g : Nat) :
    Except String (List Image) × Nat :=
  match xs with
  | [] => (.ok [], g)
  | x :: rest =>
    let ((sx, sy), g2) := drawShiftPair p g
    match RandomShiftsAug_forward p sx sy x with
    | .error e => (.error e, g2)
    | .ok y =>
      match RandomShiftsAug_forward_batch p rest g2 with
      | (.error e, g3) => (.error e, g3)
      | (.ok ys, g3) => (.ok (y :: ys), g3)

/-! ## Agent state

The mutable state of PIEGAgent: the four parameter groups (as flat lists
of rationals), the environment-step counter, the configuration fields set
in the constructor, and the training-mode flags toggled by train/eval
calls. The sampling strategy flag lives on the StochasticAgent base class
(an external dependency) and is carried here as part of the state. -/

/-- The sampling strategy flag of the StochasticAgent base class: either
stochastic sampling (RANDOM) or the deterministic distribution mean. -/
inductive SamplingStrategy
  | random
  | deterministicMean
deriving DecidableEq

structure AgentState where
  encoderP : List ℚ
  actorP : List ℚ
  criticP : List ℚ
  criticTargetP : List ℚ
  envStep : Nat
  discount : ℚ
  criticTargetTau : ℚ
  updateEverySteps : Nat
  stddevClip : ℚ
  placesData : Option (List Image)
  samplingStrategy : SamplingStrategy
  trainingMode : Bool
  encoderTraining : Bool
  actorTraining : Bool
  criticTraining : Bool
  criticTargetTraining : Bool
deriving DecidableEq

/-- The four parameter groups of the agent, bundled for frame statements. -/
def paramTuple (s : AgentState) : List ℚ × List ℚ × List ℚ × List ℚ :=
  (s.encoderP, s.actorP, s.criticP, s.criticTargetP)

/-- PIEGAgent.train / nn.Module.train: sets the training flag of the
agent and of the encoder, actor and critic (the target critic is not
touched by this method). -/
def trainModes (s : AgentState) (b : Bool) : AgentState :=
  { s with trainingMode := b, encoderTraining := b, actorTraining := b, criticTraining := b }

/-- The network evaluation maps of the agent. The encoder (a frozen
resnet backbone plus trainable projection), the actor sampling and mean,
the twin critic and the stddev schedule string parser are functions of
the respective parameter group; their internals (convolutions, the
truncated-normal draw, schedule parsing) are outside the embedded
fragment and are abstracted as arbitrary functions, so every theorem
below holds for all of them. -/
structure Nets where
  encode : List ℚ → Image → List ℚ
  actorSample : List ℚ → List ℚ → ℚ → Option ℚ → List ℚ
  actorMeanOf : List ℚ → List ℚ → ℚ → List ℚ
  critic : List ℚ → List ℚ → List ℚ → ℚ × ℚ
  schedule : Nat → ℚ

/-- The effect of loss.backward() followed by an optimizer step on one
parameter group. Autodiff and Adam live outside the embedded fragment;
each is an arbitrary function of the full pre-step agent state, so the
frame theorems below hold for every gradient outcome. -/
structure StepFns where
  encoderStep : AgentState → List ℚ
  criticStep : AgentState → List ℚ
  actorStep : AgentState → List ℚ

/-- One training mini-batch as pulled from the replay collaborator:
pixel observations, actions, rewards, next pixel observations and done
flags. -/
structure TrainData where
  obsPixels : List Image
  action : List (List ℚ)
  reward : List ℚ
  nextObsPixels : List Image
  done : List Bool

/-! ## Code of the repository outside src (pie_g/utils.py) -/

/-- Modelled from the spec: utils.soft_update_params, the Polyak blend
"target critic parameters after an update equal tau * critic + (1 - tau)
* old_target elementwise". (pie_g/utils.py is not under src.) -/
def soft_update_params (tau : ℚ) (net target : List ℚ) : List ℚ :=
  List.zipWith (fun p tp => tau * p + (1 - tau) * tp) net target

/-- Modelled from the spec: utils.random_overlay, the overlay (strong)
augmentation, which blends each observation with an unrelated background
texture from the places365 corpus; "failure to locate this corpus is a
configuration error", so a missing or malformed data directory is a
fatal error and a present corpus yields the blended batch.
(pie_g/utils.py is not under src.) The corpus argument is None exactly
when the configured path is missing or malformed. -/
def random_overlay (dataDir : Option (List Image)) (xs : List Image) :
    Except String (List Image) :=
  match dataDir with
  | none => .error "places365 data dir not found"
  | some imgs =>
    .ok (xs.map (fun x =>
      List.zipWith (fun tc xc =>
        List.zipWith (fun tr xr =>
          List.zipWith (fun a b => (1 / 2) * a + (1 / 2) * b) tr xr) tc xc)
        (imgs.headD []) x))

/-- Modelled from the spec: utils.TruncatedNormal sampling, "a Gaussian
distribution restricted to sampling within a bounded interval", exposing
"sampling (optionally clipped to a maximum deviation from the mean)".
The scaled noise is clamped to [-clip, clip] when a clip is given, added
to the mean, and the result is clamped to the bounded action range
[-1, 1]. (pie_g/utils.py is not under src.) -/
def TruncatedNormal_sample (mean std noise : ℚ) (clip : Option ℚ) : ℚ :=
  let e := noise * std
  let e2 := match clip with
    | none => e
    | some c => clampQ e (-c) c
  clampQ (mean + e2) (-1) 1

/-! ## PIEGAgent methods (agent.py lines 201-380) -/

/-- The freshly sampled next action of update_critic: the actor evaluated
on the next-state features at the scheduled stddev, sampled with the
configured stddev clip. -/
def nextActionOf (nets : Nets) (s : AgentState) (nf : List ℚ) (step : Nat) : List ℚ :=
  nets.actorSample s.actorP nf (nets.schedule step) (some s.stddevClip)

/-- The bootstrapped target batch of update_critic (lines 330-336):
target_Q = reward + not_done * (discount * min(target_Q1, target_Q2)),
where the twin target values come from the target critic on the
next-state features and the freshly sampled clipped next action. -/
def update_critic_targetQ (nets : Nets) (s : AgentState) (reward : List ℚ)
    (discount : ℚ) (notDone : List ℚ) (nextObs : List (List ℚ)) (step : Nat) : List ℚ :=
  zipWith3 (fun r nd nf =>
    let na := nextActionOf nets s nf step
    let p := nets.critic s.criticTargetP nf na
    r + nd * (discount * min p.1 p.2)) reward notDone nextObs

/-- The critic loss of update_critic (lines 338-344): the mean-squared
errors of both critic heads against the target on the plain-augmented
features plus the same on the overlay-augmented features, halved. -/
def update_critic_loss (nets : Nets) (s : AgentState) (obs action : List (List ℚ))
    (reward : List ℚ) (discount : ℚ) (notDone : List ℚ) (nextObs : List (List ℚ))
    (step : Nat) (augObs : List (List ℚ)) : ℚ :=
  let targetQ := update_critic_targetQ nets s reward discount notDone nextObs step
  let qPairs := List.zipWith (fun f a => nets.critic s.criticP f a) obs action
  let q1 := qPairs.map (fun p => p.1)
  let q2 := qPairs.map (fun p => p.2)
  let augPairs := List.zipWith (fun f a => nets.critic s.criticP f a) augObs action
  let augQ1 := augPairs.map (fun p => p.1)
  let augQ2 := augPairs.map (fun p => p.2)
  (1 / 2) * ((mse_loss q1 targetQ + mse_loss q2 targetQ)
    + (mse_loss augQ1 targetQ + mse_loss augQ2 targetQ))

/-- PIEGAgent.update_critic (lines 322-358): flips the actor and target
critic to eval and the critic to train, computes the bootstrapped target
and the averaged plain/overlay critic loss, logs the target and head
means and the loss, and then steps the critic and encoder optimizers
(only those two parameter groups are assigned). -/
def update_critic (nets : Nets) (fs : StepFns) (s0 : AgentState)
    (obs action : List (List ℚ)) (reward : List ℚ) (discount : ℚ) (notDone : List ℚ)
    (nextObs : List (List ℚ)) (step : Nat) (augObs : List (List ℚ)) :
    AgentState × List (String × ℚ) :=
  let s := { s0 with actorTraining := false, criticTargetTraining := false, criticTraining := true }
  let targetQ := update_critic_targetQ nets s reward discount notDone nextObs step
  let qPairs := List.zipWith (fun f a => nets.critic s.criticP f a) obs action
  let q1 := qPairs.map (fun p => p.1)
  let q2 := qPairs.map (fun p => p.2)
  let criticLoss := update_critic_loss nets s obs action reward discount notDone nextObs step augObs
  let logs := [("critic_target_q", listMean targetQ), ("critic_q1", listMean q1),
               ("critic_q2", listMean q2), ("critic_loss", criticLoss)]
  let s1 := { s with criticP := fs.criticStep s }
  let s2 := { s1 with encoderP := fs.encoderStep s1 }
  (s2, logs)

/-- PIEGAgent.update_actor (lines 360-380): flips the critic to eval and
the actor to train, samples an action from the current policy at the
(detached) observation features, evaluates it with the critic, takes the
minimum twin value, and steps only the actor optimizer on the negated
mean value. -/
def update_actor (nets : Nets) (fs : StepFns) (s0 : AgentState)
    (obs : List (List ℚ)) (step : Nat) : AgentState × List (String × ℚ) :=
  let s := { s0 with criticTraining := false, actorTraining := true }
  let stddev := nets.schedule step
  let actions := obs.map (fun f => nets.actorSample s.actorP f stddev (some s.stddevClip))
  let qPairs := List.zipWith (fun f a => nets.critic s.criticP f a) obs actions
  let qmin := qPairs.map (fun p => min p.1 p.2)
  let actorLoss := -(listMean qmin)
  let s1 := { s with actorP := fs.actorStep s }
  (s1, [("actor_loss", actorLoss)])

/-- PIEGAgent.update (lines 272-320): switches to train mode, computes
the not-done mask, returns an empty log dictionary when the step count
is not divisible by the update frequency, and otherwise augments both
observation streams, encodes the plain, overlay and (no-grad) next
features, runs the critic update, then the actor update on detached
features, and finally blends the target critic toward the live critic.
The fallible operations (the squareness assertions inside the
augmentation and the overlay corpus lookup) all occur before any
optimizer step. -/
def update (nets : Nets) (fs : StepFns) (s0 : AgentState) (g : Nat)
    (data : TrainData) (envStepArg : Nat) :
    AgentState × Nat × Except String (List (String × ℚ)) :=
  let s := trainModes s0 true
  let notDone := data.done.map (fun d => 1 - (if d then (1 : ℚ) else 0))
  if envStepArg % s.updateEverySteps ≠ 0 then (s, g, .ok [])
  else
    match RandomShiftsAug_forward_batch 4 data.obsPixels g with
    | (.error e, g1) => (s, g1, .error e)
    | (.ok obsAug, g1) =>
      match RandomShiftsAug_forward_batch 4 data.nextObsPixels g1 with
      | (.error e, g2) => (s, g2, .error e)
      | (.ok nextObsAug, g2) =>
        let obsFeat := obsAug.map (nets.encode s.encoderP)
        match random_overlay s.placesData obsAug with
        | .error e => (s, g2, .error e)
        | .ok overlaid =>
          let augFeat := overlaid.map (nets.encode s.encoderP)
          let nextFeat := nextObsAug.map (nets.encode s.encoderP)
          let sc := update_critic nets fs s obsFeat data.action data.reward
            s.discount notDone nextFeat envStepArg augFeat
          let sa := update_actor nets fs sc.1 obsFeat envStepArg
          let newTarget := soft_update_params sa.1.criticTargetTau sa.1.criticP sa.1.criticTargetP
          let s3 := { sa.1 with criticTargetP := newTarget }
          (s3, g2, .ok (sc.2 ++ sa.2))

/-- PIEGAgent.get_action (lines 253-264): encodes the observation, builds
the policy distribution at the scheduled stddev, and either samples
without clipping and increments the internal env_step counter (RANDOM
strategy) or returns the distribution mean leaving the counter alone. -/
def get_action (nets : Nets) (s : AgentState) (observation : Image) :
    List ℚ × AgentState :=
  let obs := nets.encode s.encoderP observation
  let stddev := nets.schedule s.envStep
  if s.samplingStrategy = SamplingStrategy.random then
    (nets.actorSample s.actorP obs stddev none, { s with envStep := s.envStep + 1 })
  else
    (nets.actorMeanOf s.actorP obs stddev, s)

/-! ## Construction (agent.py lines 201-251 and the encoders) -/

/-- The construction-time shape assertion of Encoder.__init__ (line 49):
assert len(obs_shape) == 3. -/
def Encoder_init_check (obsShape : List Nat) : Except String Unit :=
  if obsShape.length = 3 then .ok () else .error "assert len(obs_shape) == 3"

/-- The construction-time shape validation performed by
ResEncoder.__init__ through its probe forward pass (lines 87-90): the
probe reshapes the stacked frames as (batch, time_step, 3, h, w), which
requires a rank-3 observation shape whose channel count is a multiple of
the image channel count 3; no squareness requirement is imposed at
construction. -/
def ResEncoder_init_check (obsShape : List Nat) : Except String Unit :=
  match obsShape with
  | [c, _, _] =>
    if c % 3 = 0 then .ok ()
    else .error "probe forward: channels not divisible by image_channel"
  | _ => .error "probe forward: obs_shape rank mismatch"

/-- PIEGAgent.__init__ (lines 201-251): stores the configuration
(including the places365 data directory, unvalidated), builds the
encoder (whose probe forward validates the declared observation shape),
actor and critic, copies the critic weights into the target critic, and
switches everything to train mode. -/
def PIEGAgent_init (obsShape : List Nat) (gamma tau : ℚ) (ue : Nat) (clip : ℚ)
    (placesData : Option (List Image)) (strat : SamplingStrategy)
    (encP actP crP : List ℚ) : Except String AgentState :=
  match ResEncoder_init_check obsShape with
  | .error e => .error e
  | .ok _ => .ok {
      encoderP := encP, actorP := actP, criticP := crP,
      criticTargetP := crP,
      envStep := 0, discount := gamma, criticTargetTau := tau,
      updateEverySteps := ue, stddevClip := clip, placesData := placesData,
      samplingStrategy := strat,
      trainingMode := true, encoderTraining := true, actorTraining := true,
      criticTraining := true, criticTargetTraining := true }

/-- Whether an Except result is an error (a raised exception). -/
def isErr {ε α : Type} : Except ε α → Bool
  | .error _ => true
  | .ok _ => false

/-! ## Concrete fixtures used by the witness theorems -/

/-- A concrete network bundle for witness evaluation. -/
def nets0 : Nets where
  encode := fun _ _ => []
  actorSample := fun _ _ _ _ => []
  actorMeanOf := fun _ _ _ => []
  critic := fun p _ _ => (p.headD 0, p.getLastD 0)
  schedule := fun _ => 1

/-- Concrete optimizer-step effects for witness evaluation. -/
def fs0 : StepFns where
  encoderStep := fun s => s.encoderP.map (fun x => x + 1)
  criticStep := fun s => s.criticP.map (fun x => x + 1)
  actorStep := fun s => s.actorP.map (fun x => x + 1)

/-- A concrete agent state with a present overlay corpus. -/
def sFix : AgentState where
  encoderP := [1]
  actorP := [2]
  criticP := [3, 5]
  criticTargetP := [2, 3]
  envStep := 0
  discount := 99 / 100
  criticTargetTau := 1 / 100
  updateEverySteps := 1
  stddevClip := 3 / 10
  placesData := some []
  samplingStrategy := SamplingStrategy.random
  trainingMode := true
  encoderTraining := true
  actorTraining := true
  criticTraining := true
  criticTargetTraining := true

/-- The same agent state with a missing overlay corpus. -/
def sNone : AgentState := { sFix with placesData := none }

/-- The same agent state with update frequency 2. -/
def sSkip : AgentState := { sFix with updateEverySteps := 2 }

/-- An empty mini-batch. -/
def dataEmpty : TrainData where
  obsPixels := []
  action := []
  reward := []
  nextObsPixels := []
  done := []

/-- A concrete 2 x 2 single-channel image. -/
def imgA : Image := [[[1, 0], [0, 0]]]

/-- A concrete non-square (84 x 80) single-channel image. -/
def imgNS : Image := [List.replicate 84 (List.replicate 80 (0 : ℚ))]

/-- A mini-batch carrying the non-square observation. -/
def data84 : TrainData where
  obsPixels := [imgNS]
  action := []
  reward := []
  nextObsPixels := []
  done := []

/-- The agent state produced by the constructor fixture below. -/
def s84 : AgentState where
  encoderP := [1]
  actorP := [2]
  criticP := [3]
  criticTargetP := [3]
  envStep := 0
  discount := 99 / 100
  criticTargetTau := 1 / 100
  updateEverySteps := 1
  stddevClip := 3 / 10
  placesData := some []
  samplingStrategy := SamplingStrategy.random
  trainingMode := true
  encoderTraining := true
  actorTraining := true
  criticTraining := true
  criticTargetTraining := true

/-- The same constructed agent state with a missing overlay corpus. -/
def sMissing : AgentState := { s84 with placesData := none }

/-! ## Helper lemmas -/

theorem getD_zipWith3 {α β γ δ : Type} (f : α → β → γ → δ)
    (as : List α) (bs : List β) (cs : List γ) (i : Nat)
    (d : δ) (da : α) (db : β) (dc : γ)
    (ha : i < as.length) (hb : i < bs.length) (hc : i < cs.length) :
    (zipWith3 f as bs cs).getD i d = f (as.getD i da) (bs.getD i db) (cs.getD i dc) := by
  induction as generalizing bs cs i with
  | nil => simp at ha
  | cons a arest ih =>
    cases bs with
    | nil => simp at hb
    | cons b brest =>
      cases cs with
      | nil => simp at hc
      | cons c crest =>
        cases i with
        | zero => simp [zipWith3]
        | succ n =>
          simp only [zipWith3, List.getD_cons_succ]
          exact ih brest crest n (by simpa using ha) (by simpa using hb) (by simpa using hc)

theorem sqdiff_sum_nonneg (a b : List ℚ) :
    0 ≤ (List.zipWith (fun x y => (x - y) * (x - y)) a b).sum := by
  induction a generalizing b with
  | nil => simp
  | cons x xs ih =>
    cases b with
    | nil => simp
    | cons y ys =>
      simp only [List.zipWith_cons_cons, List.sum_cons]
      exact add_nonneg (mul_self_nonneg _) (ih ys)

theorem mse_loss_nonneg (a b : List ℚ) : 0 ≤ mse_loss a b := by
  unfold mse_loss
  exact div_nonneg (sqdiff_sum_nonneg a b) (Nat.cast_nonneg _)

theorem half_sum4_nonneg (a b c d : ℚ) (ha : 0 ≤ a) (hb : 0 ≤ b) (hc : 0 ≤ c)
    (hd : 0 ≤ d) : 0 ≤ (1 / 2) * ((a + b) + (c + d)) := by linarith

/-! ## Claim theorems -/

/-- Claim C1: in update_critic, for every batch element, the bootstrapped
target equals reward + not_done * (discount * min(target_Q1, target_Q2))
where the twin target values are the target critic outputs on the
next-state encoding and the freshly sampled, clip-bounded next action;
for reward 1, done false (not_done 1) and discount 99/100 this is
1 + (99/100) * min(target_Q1, target_Q2), and the critic loss is
non-negative (and finite, as every value in the exact rational model is). -/
theorem C1_critic_target (nets : Nets) (s : AgentState) (obs action : List (List ℚ))
    (reward : List ℚ) (discount : ℚ) (notDone : List ℚ) (nextObs : List (List ℚ))
    (step : Nat) (augObs : List (List ℚ)) (i : Nat)
    (hi : i < reward.length) (hnd : notDone.length = reward.length)
    (hno : nextObs.length = reward.length) :
    ((update_critic_targetQ nets s reward discount notDone nextObs step).getD i 0
        = reward.getD i 0 + notDone.getD i 0 * (discount *
            min (nets.critic s.criticTargetP (nextObs.getD i [])
                  (nextActionOf nets s (nextObs.getD i []) step)).1
                (nets.critic s.criticTargetP (nextObs.getD i [])
                  (nextActionOf nets s (nextObs.getD i []) step)).2))
      ∧ (reward.getD i 0 = 1 → notDone.getD i 0 = 1 → discount = 99 / 100 →
          (update_critic_targetQ nets s reward discount notDone nextObs step).getD i 0
            = 1 + (99 / 100) *
                min (nets.critic s.criticTargetP (nextObs.getD i [])
                      (nextActionOf nets s (nextObs.getD i []) step)).1
                    (nets.critic s.criticTargetP (nextObs.getD i [])
                      (nextActionOf nets s (nextObs.getD i []) step)).2)
      ∧ 0 ≤ update_critic_loss nets s obs action reward discount notDone nextObs step augObs := by
  have hmain : (update_critic_targetQ nets s reward discount notDone nextObs step).getD i 0
      = reward.getD i 0 + notDone.getD i 0 * (discount *
          min (nets.critic s.criticTargetP (nextObs.getD i [])
                (nextActionOf nets s (nextObs.getD i []) step)).1
              (nets.critic s.criticTargetP (nextObs.getD i [])
                (nextActionOf nets s (nextObs.getD i []) step)).2) := by
    unfold update_critic_targetQ
    rw [getD_zipWith3 _ reward notDone nextObs i 0 0 0 [] hi (by omega) (by omega)]
  refine ⟨hmain, ?_, ?_⟩
  · intro hr hnd1 hd
    rw [hmain, hr, hnd1, hd]
    ring
  · unfold update_critic_loss
    exact half_sum4_nonneg _ _ _ _ (mse_loss_nonneg _ _) (mse_loss_nonneg _ _)
      (mse_loss_nonneg _ _) (mse_loss_nonneg _ _)

/-- Witness for C1 at a concrete batch: one transition with reward 1,
not_done 1, discount 99/100, and the constant fixture networks. -/
theorem C1_critic_target_witness :
    ((update_critic_targetQ nets0 sFix [1] (99 / 100) [1] [[]] 0).getD 0 0
        = [(1 : ℚ)].getD 0 0 + [(1 : ℚ)].getD 0 0 * ((99 / 100) *
            min (nets0.critic sFix.criticTargetP ([[]].getD 0 [])
                  (nextActionOf nets0 sFix ([[]].getD 0 []) 0)).1
                (nets0.critic sFix.criticTargetP ([[]].getD 0 [])
                  (nextActionOf nets0 sFix ([[]].getD 0 []) 0)).2))
      ∧ ([(1 : ℚ)].getD 0 0 = 1 → [(1 : ℚ)].getD 0 0 = 1 → (99 / 100 : ℚ) = 99 / 100 →
          (update_critic_targetQ nets0 sFix [1] (99 / 100) [1] [[]] 0).getD 0 0
            = 1 + (99 / 100) *
                min (nets0.critic sFix.criticTargetP ([[]].getD 0 [])
                      (nextActionOf nets0 sFix ([[]].getD 0 []) 0)).1
                    (nets0.critic sFix.criticTargetP ([[]].getD 0 [])
                      (nextActionOf nets0 sFix ([[]].getD 0 []) 0)).2)
      ∧ 0 ≤ update_critic_loss nets0 sFix [[]] [[]] [1] (99 / 100) [1] [[]] 0 [[]] :=
  C1_critic_target nets0 sFix [[]] [[]] [1] (99 / 100) [1] [[]] 0 [[]] 0
    (by decide) (by decide) (by decide)

/-- Claim C2: update_critic leaves the actor parameters (and the target
critic parameters) bit-identical, assigning only the encoder and critic
groups; update_actor leaves the critic, encoder and target critic
parameters bit-identical, assigning only the actor group. This holds for
every input batch and every gradient outcome. -/
theorem C2_update_frames (nets : Nets) (fs : StepFns) (s0 s1 : AgentState)
    (obs action : List (List ℚ)) (reward : List ℚ) (discount : ℚ) (notDone : List ℚ)
    (nextObs : List (List ℚ)) (step : Nat) (augObs : List (List ℚ))
    (obs2 : List (List ℚ)) (step2 : Nat) :
    (update_critic nets fs s0 obs action reward discount notDone nextObs step augObs).1.actorP
        = s0.actorP
      ∧ (update_critic nets fs s0 obs action reward discount notDone nextObs step augObs).1.criticTargetP
        = s0.criticTargetP
      ∧ (update_actor nets fs s1 obs2 step2).1.criticP = s1.criticP
      ∧ (update_actor nets fs s1 obs2 step2).1.encoderP = s1.encoderP
      ∧ (update_actor nets fs s1 obs2 step2).1.criticTargetP = s1.criticTargetP := by
  refine ⟨?_, ?_, ?_, ?_, ?_⟩ <;> simp [update_critic, update_actor]

/-- Claim C5: a clipped sample from the modelled truncated-normal
distribution lies in [mean - clip, mean + clip] intersected with the
bounded action range [-1, 1], for every noise value, whenever the mean
lies in the action range (as the tanh-bounded actor mean does) and the
clip is non-negative. -/
theorem C5_clipped_sample (mean std noise clip : ℚ)
    (hm1 : -1 ≤ mean) (hm2 : mean ≤ 1) (hc : 0 ≤ clip) :
    (mean - clip ≤ TruncatedNormal_sample mean std noise (some clip)
        ∧ TruncatedNormal_sample mean std noise (some clip) ≤ mean + clip)
      ∧ (-1 ≤ TruncatedNormal_sample mean std noise (some clip)
        ∧ TruncatedNormal_sample mean std noise (some clip) ≤ 1) := by
  simp only [TruncatedNormal_sample, clampQ]
  have he1 : -clip ≤ max (-clip) (min clip (noise * std)) := le_max_left _ _
  have he2 : max (-clip) (min clip (noise * std)) ≤ clip :=
    max_le (by linarith) (min_le_left _ _)
  refine ⟨⟨?_, ?_⟩, ?_, ?_⟩
  · exact le_trans (le_min (by linarith) (by linarith)) (le_max_right _ _)
  · exact max_le (by linarith) (le_trans (min_le_right _ _) (by linarith))
  · exact le_max_left _ _
  · exact max_le (by norm_num) (min_le_left _ _)

/-- Witness for C5 at mean 1/2, std 1, noise 3, clip 1/4. -/
theorem C5_clipped_sample_witness :
    ((-1 : ℚ) ≤ 1 / 2 ∧ (1 / 2 : ℚ) ≤ 1 ∧ (0 : ℚ) ≤ 1 / 4)
      ∧ (((1 / 2 : ℚ) - 1 / 4 ≤ TruncatedNormal_sample (1 / 2) 1 3 (some (1 / 4))
          ∧ TruncatedNormal_sample (1 / 2) 1 3 (some (1 / 4)) ≤ 1 / 2 + 1 / 4)
        ∧ (-1 ≤ TruncatedNormal_sample (1 / 2) 1 3 (some (1 / 4))
          ∧ TruncatedNormal_sample (1 / 2) 1 3 (some (1 / 4)) ≤ 1)) :=
  ⟨⟨by norm_num, by norm_num, by norm_num⟩,
    C5_clipped_sample (1 / 2) 1 3 (1 / 4) (by norm_num) (by norm_num) (by norm_num)⟩

/-- Claim C6: the random-shift augmentation is a deterministic function
of the input batch and the generator state (equal states give identical
outputs and identical final states), and different seeds generally give
different spatial shifts, exemplified by the modelled generator states 0
and 3, whose drawn shift pairs differ. -/
theorem C6_aug_deterministic (p : Nat) (xs : List Image) (g g2 : Nat) (hg : g = g2) :
    RandomShiftsAug_forward_batch p xs g = RandomShiftsAug_forward_batch p xs g2
      ∧ (drawShiftPair 4 0).1 ≠ (drawShiftPair 4 3).1 := by
  subst hg
  exact ⟨rfl, by decide⟩

/-- Witness for C6 at a concrete image batch and generator state. -/
theorem C6_aug_deterministic_witness :
    RandomShiftsAug_forward_batch 4 [imgA] 7 = RandomShiftsAug_forward_batch 4 [imgA] 7
      ∧ (drawShiftPair 4 0).1 ≠ (drawShiftPair 4 3).1 :=
  C6_aug_deterministic 4 [imgA] 7 7 rfl

/-- Claim C10: get_action increments the internal env_step counter by
exactly one under the RANDOM sampling strategy and leaves it unchanged
under the deterministic-mean strategy, and in both cases leaves every
model parameter group unchanged. -/
theorem C10_get_action_counter (nets : Nets) (s : AgentState) (observation : Image) :
    ((get_action nets s observation).2.envStep
        = if s.samplingStrategy = SamplingStrategy.random then s.envStep + 1 else s.envStep)
      ∧ paramTuple (get_action nets s observation).2 = paramTuple s := by
  by_cases h : s.samplingStrategy = SamplingStrategy.random <;>
    simp [get_action, paramTuple, h]

/-- Claim C3: after an update cycle that performs its gradient steps (the
step count hits the update frequency and no fallible stage errors), the
target critic parameters equal tau * (live critic) + (1 - tau) * (previous
target) elementwise for tau = critic_target_tau; the live critic here is
the post-gradient one (the blend happens after both updates) and the
previous target is the pre-call one (the target critic is never touched
by gradient descent). -/
theorem C3_target_polyak (nets : Nets) (fs : StepFns) (s0 : AgentState) (g : Nat)
    (data : TrainData) (estep : Nat)
    (hmod : estep % s0.updateEverySteps = 0)
    (o1 : List Image) (g1 : Nat)
    (h1 : RandomShiftsAug_forward_batch 4 data.obsPixels g = (.ok o1, g1))
    (o2 : List Image) (g2 : Nat)
    (h2 : RandomShiftsAug_forward_batch 4 data.nextObsPixels g1 = (.ok o2, g2))
    (ov : List Image)
    (h3 : random_overlay s0.placesData o1 = .ok ov) :
    (update nets fs s0 g data estep).1.criticTargetP
      = soft_update_params s0.criticTargetTau
          (update nets fs s0 g data estep).1.criticP s0.criticTargetP := by
  simp only [update, trainModes]
  rw [if_neg (by simp [hmod])]
  simp only [h1, h2, h3]
  simp [update_critic, update_actor, soft_update_params]

/-- Witness for C3 at a concrete state and an empty batch. -/
theorem C3_target_polyak_witness :
    (update nets0 fs0 sFix 0 dataEmpty 0).1.criticTargetP
      = soft_update_params sFix.criticTargetTau
          (update nets0 fs0 sFix 0 dataEmpty 0).1.criticP sFix.criticTargetP :=
  C3_target_polyak nets0 fs0 sFix 0 dataEmpty 0 (by decide) [] 0 rfl [] 0 rfl [] rfl

/-- Claim C4: when the step count is not divisible by the (positive)
configured update frequency, update returns the empty log dictionary,
leaves every parameter group unchanged, and draws nothing from the
generator. -/
theorem C4_update_skip (nets : Nets) (fs : StepFns) (s0 : AgentState) (g : Nat)
    (data : TrainData) (estep : Nat)
    (hue : 0 < s0.updateEverySteps)
    (hmod : estep % s0.updateEverySteps ≠ 0) :
    paramTuple (update nets fs s0 g data estep).1 = paramTuple s0
      ∧ (update nets fs s0 g data estep).2.2 = .ok []
      ∧ (update nets fs s0 g data estep).2.1 = g := by
  have _hue := hue
  simp only [update, trainModes]
  rw [if_pos (by simpa using hmod)]
  simp [paramTuple]

/-- Witness for C4 at update frequency 2 and step count 1. -/
theorem C4_update_skip_witness :
    paramTuple (update nets0 fs0 sSkip 0 dataEmpty 1).1 = paramTuple sSkip
      ∧ (update nets0 fs0 sSkip 0 dataEmpty 1).2.2 = .ok []
      ∧ (update nets0 fs0 sSkip 0 dataEmpty 1).2.1 = 0 :=
  C4_update_skip nets0 fs0 sSkip 0 dataEmpty 1 (by decide) (by decide)

/-- Claim C7: update is atomic with respect to parameter state: whenever
the call raises (returns an error), every fallible stage has run before
any optimizer step, so all four parameter groups are exactly as they
were before the call; there is no execution in which some groups have
been stepped and others not when the call errors. -/
theorem C7_update_atomic (nets : Nets) (fs : StepFns) (s0 : AgentState) (g : Nat)
    (data : TrainData) (estep : Nat)
    (herr : isErr ((update nets fs s0 g data estep).2.2) = true) :
    paramTuple (update nets fs s0 g data estep).1 = paramTuple s0 := by
  by_cases hmod : estep % s0.updateEverySteps ≠ 0
  · simp only [update, trainModes] at herr
    rw [if_pos (by simpa using hmod)] at herr
    simp [isErr] at herr
  · rcases haug1 : RandomShiftsAug_forward_batch 4 data.obsPixels g with ⟨r1, gx1⟩
    cases r1 with
    | error e1 =>
      simp only [update, trainModes]
      rw [if_neg (by simpa using hmod)]
      simp only [haug1]
      simp [paramTuple]
    | ok o1 =>
      rcases haug2 : RandomShiftsAug_forward_batch 4 data.nextObsPixels gx1 with ⟨r2, gx2⟩
      cases r2 with
      | error e2 =>
        simp only [update, trainModes]
        rw [if_neg (by simpa using hmod)]
        simp only [haug1, haug2]
        simp [paramTuple]
      | ok o2 =>
        cases hov : random_overlay s0.placesData o1 with
        | error e3 =>
          simp only [update, trainModes]
          rw [if_neg (by simpa using hmod)]
          simp only [haug1, haug2, hov]
          simp [paramTuple]
        | ok ov =>
          simp only [update, trainModes] at herr
          rw [if_neg (by simpa using hmod)] at herr
          simp only [haug1, haug2, hov] at herr
          simp [isErr] at herr

/-- Witness for C7 at a concrete erroring call (missing overlay corpus). -/
theorem C7_update_atomic_witness :
    isErr ((update nets0 fs0 sNone 0 dataEmpty 0).2.2) = true
      ∧ paramTuple (update nets0 fs0 sNone 0 dataEmpty 0).1 = paramTuple sNone :=
  ⟨rfl, C7_update_atomic nets0 fs0 sNone 0 dataEmpty 0 rfl⟩

/-- Claim C8 counterexample: the declared shape (9, 84, 80) has a
non-square observation image; construction succeeds (the probe only
requires rank 3 with channels a multiple of 3), yet the first update
call fails at the call-time squareness assertion in
RandomShiftsAug.forward. So not every shape mismatch is a
construction-time failure, contrary to the claim. -/
theorem C8_shape_counterexample :
    PIEGAgent_init [9, 84, 80] (99 / 100) (1 / 100) 1 (3 / 10) (some [])
        SamplingStrategy.random [1] [2] [3] = .ok s84
      ∧ isErr ((update nets0 fs0 s84 0 data84 0).2.2) = true := by
  exact ⟨rfl, rfl⟩

/-- Claim C8 as amended: rank mismatches of the declared obs_shape are
fatal at construction time (the Encoder assertion and the ResEncoder
probe reshape), but the squareness of the observation image is asserted
at call time, inside RandomShiftsAug.forward during update, not at
construction. -/
theorem C8_shape_check_timing (obsShape : List Nat) (p sx sy : Nat) (img : Image)
    (hlen : obsShape.length ≠ 3)
    (hsq : (img.headD []).length ≠ ((img.headD []).headD []).length) :
    ResEncoder_init_check obsShape = .error "probe forward: obs_shape rank mismatch"
      ∧ Encoder_init_check obsShape = .error "assert len(obs_shape) == 3"
      ∧ RandomShiftsAug_forward p sx sy img = .error "assert h == w" := by
  refine ⟨?_, ?_, ?_⟩
  · rcases obsShape with _ | ⟨a, _ | ⟨b, _ | ⟨c, _ | d⟩⟩⟩ <;>
      simp_all [ResEncoder_init_check]
  · simp [Encoder_init_check, hlen]
  · simp only [RandomShiftsAug_forward]
    rw [if_neg hsq]

/-- Witness for the amended C8 at a rank-2 shape and a 1 x 2 image. -/
theorem C8_shape_check_timing_witness :
    ResEncoder_init_check [1, 2] = .error "probe forward: obs_shape rank mismatch"
      ∧ Encoder_init_check [1, 2] = .error "assert len(obs_shape) == 3"
      ∧ RandomShiftsAug_forward 4 0 0 [[[1, 0]]] = .error "assert h == w" :=
  C8_shape_check_timing [1, 2] 4 0 0 [[[1, 0]]] (by decide) (by decide)

/-- Claim C9 counterexample: constructing the agent with a missing
overlay corpus succeeds (the path is stored unvalidated), and the fatal
error only surfaces during the first gradient-performing update call,
contrary to the claim that it is fatal at construction time. -/
theorem C9_overlay_counterexample :
    PIEGAgent_init [9, 84, 84] (99 / 100) (1 / 100) 1 (3 / 10) none
        SamplingStrategy.random [1] [2] [3] = .ok sMissing
      ∧ (update nets0 fs0 sMissing 0 dataEmpty 0).2.2
        = .error "places365 data dir not found" := by
  exact ⟨rfl, rfl⟩

/-- Claim C9 as amended: a missing or malformed augmentation-data path is
stored unchecked at construction and becomes a fatal error at the first
update call that reaches the strong-augmentation step; the error occurs
before any optimizer step, leaving all parameters unchanged. -/
theorem C9_overlay_update_fatal (nets : Nets) (fs : StepFns) (s0 : AgentState)
    (g : Nat) (data : TrainData) (estep : Nat)
    (hnone : s0.placesData = none)
    (hmod : estep % s0.updateEverySteps = 0)
    (o1 : List Image) (g1 : Nat)
    (h1 : RandomShiftsAug_forward_batch 4 data.obsPixels g = (.ok o1, g1))
    (o2 : List Image) (g2 : Nat)
    (h2 : RandomShiftsAug_forward_batch 4 data.nextObsPixels g1 = (.ok o2, g2)) :
    (update nets fs s0 g data estep).2.2 = .error "places365 data dir not found"
      ∧ paramTuple (update nets fs s0 g data estep).1 = paramTuple s0 := by
  simp only [update, trainModes]
  rw [if_neg (by simp [hmod])]
  simp only [h1, h2, hnone]
  simp [random_overlay, paramTuple]

/-- Witness for the amended C9 at a concrete state with no corpus. -/
theorem C9_overlay_update_fatal_witness :
    (update nets0 fs0 sNone 0 dataEmpty 0).2.2 = .error "places365 data dir not found"
      ∧ paramTuple (update nets0 fs0 sNone 0 dataEmpty 0).1 = paramTuple sNone :=
  C9_overlay_update_fatal nets0 fs0 sNone 0 dataEmpty 0 rfl (by decide) [] 0 rfl [] 0 rfl

end PieG
